import Mathlib

/-!
Shallow embedding of `models/palm_detection_mediapipe/demo.py`.

The embedded code is the result-visualization routine `visualize`, the CLI
helper `str2bool`, and the truthiness of the `--save` option in the main
branch.  Detection records are the flat numeric arrays the detector returns:
4 box coordinates, 7 landmark coordinate pairs and a score, 19 rationals in
all (machine floats are modelled as exact rationals).  The drawing primitives
of the external vision library are modelled as a trace of drawing commands:
a frame buffer is its base pixel grid together with the list of commands
applied to it, and two buffers are pixel-identical when they are equal.
Frames live in a store (a list of buffers) so that the Python-level aliasing
question, namely whether `visualize` mutates the buffer of its argument,
is expressible: `image.copy()` allocates a fresh buffer and every drawing
call targets the fresh buffer.
-/

/-- A pixel value, one entry per channel in the platform channel order. -/
abbrev Color := ℕ × ℕ × ℕ

/-- An integer pixel position. -/
abbrev Pt := ℤ × ℤ

/-- Conversion of a rational coordinate with `astype(np.int32)`: truncation
toward zero, `q.num.tdiv q.den`. -/
def truncInt (q : ℚ) : ℤ := q.num.tdiv q.den

/-- One call to a drawing primitive of the external vision library, recorded
with the arguments the demo passes. -/
inductive DrawCmd where
  | putText (text : String) (org : Pt) (fontFace : ℕ) (fontScale : ℚ) (color : Color)
  | rectangle (pt1 : Pt) (pt2 : Pt) (color : Color) (thickness : ℤ)
  | circle (center : Pt) (radius : ℤ) (color : Color) (thickness : ℤ)
deriving DecidableEq

/-- A frame buffer: the base pixel grid plus the drawing commands applied to
it so far.  Two buffers are pixel-identical exactly when they are equal. -/
structure Buffer where
  pixels : List (List Color)
  cmds : List DrawCmd
deriving DecidableEq

/-- `cv.FONT_HERSHEY_SIMPLEX`. -/
def FONT_HERSHEY_SIMPLEX : ℕ := 0

/-- `cv.FONT_HERSHEY_DUPLEX`. -/
def FONT_HERSHEY_DUPLEX : ℕ := 2

/-- The font scale `0.5` used by both text calls. -/
def half : ℚ := mkRat 1 2

/-- Python fixed-point formatting of a nonnegative-width fraction:
the value scaled by `10 ^ prec` and rounded to the nearest integer
(computed exactly on `num` and `den` with integer operations), printed with
`prec` fractional digits.  Models the format specifier `.2f` and `.4f`. -/
def fmtFixed (prec : ℕ) (q : ℚ) : String :=
  let scaled : ℤ := Int.fdiv (2 * q.num * (10 : ℤ) ^ prec + (q.den : ℤ)) (2 * (q.den : ℤ))
  let sign := if scaled < 0 then "-" else ""
  let a := scaled.natAbs
  let frac := toString (a % 10 ^ prec)
  sign ++ toString (a / 10 ^ prec) ++ "." ++
    String.mk (List.replicate (prec - frac.length) '0') ++ frac

/-- Left padding with spaces to a given width, as numpy aligns the entries
of a one-dimensional integer array. -/
def padTo (w : ℕ) (s : String) : String :=
  String.mk (List.replicate (w - s.length) ' ') ++ s

/-- The `str` form of a one-dimensional numpy integer array: the entries
right-aligned to a common width, space separated, inside brackets. -/
def npFmt (l : List ℤ) : String :=
  let reprs := l.map (fun n => toString n)
  let w := reprs.foldr (fun s acc => max s.length acc) 0
  "[" ++ String.intercalate " " (reprs.map (padTo w)) ++ "]"

/-- Row iteration of `reshape(7, 2)` output: consecutive pairs. -/
def pairup : List ℚ → List (ℚ × ℚ)
  | x :: y :: rest => (x, y) :: pairup rest
  | _ => []

/-- `arr.reshape(7, 2)`: succeeds exactly when the array has 14 entries,
otherwise numpy raises a ValueError about the shape. -/
def reshape7x2 (l : List ℚ) : Option (List (ℚ × ℚ)) :=
  if l.length = 14 then some (pairup l) else none

/-- The failure modes of the embedded `visualize`: an IndexError from
`palm[-1]` on an empty record, the numpy shape ValueError from
`reshape(7, 2)` carrying the offending size, and an invalid frame
reference. -/
inductive VisErr where
  | indexError
  | shapeError (sz : ℕ)
  | badRef
deriving DecidableEq

/-- The outcome of one loop iteration of `visualize`: the drawing commands
issued and the report lines printed, or the exception raised. -/
inductive PlanOut where
  | ok (cmds : List DrawCmd) (lines : List String)
  | err (e : VisErr)
deriving DecidableEq

/-- The body of the `for idx, palm in enumerate(results)` loop for one
record: read the score with `palm[-1]`, slice the box `palm[0:4]`, reshape
the landmarks `palm[4:-1].reshape(7, 2)`, convert box and landmarks with
`astype(np.int32)`, then put the score text, draw the box rectangle, draw
one circle per landmark, and print the report block when requested. -/
def palmPlan (idx : ℕ) (palm : List ℚ) (printResults : Bool) : PlanOut :=
  match palm.getLast? with
  | none => .err .indexError
  | some score =>
    match reshape7x2 ((palm.drop 4).dropLast) with
    | none => .err (.shapeError ((palm.drop 4).dropLast).length)
    | some lms =>
      match (palm.take 4).map truncInt with
      | [x1, y1, x2, y2] =>
        let lmsI := lms.map (fun p => (truncInt p.1, truncInt p.2))
        .ok
          (DrawCmd.putText (fmtFixed 4 score) (x1, y1 + 12) FONT_HERSHEY_DUPLEX half (0, 255, 0)
            :: DrawCmd.rectangle (x1, y1) (x2, y2) (0, 255, 0) 2
            :: lmsI.map (fun p => DrawCmd.circle p 2 (0, 0, 255) 2))
          (if printResults then
            ("-----------palm " ++ toString (idx + 1) ++ "-----------")
              :: ("score: " ++ fmtFixed 2 score)
              :: ("palm box: " ++ npFmt [x1, y1, x2, y2])
              :: "palm landmarks: "
              :: lmsI.map (fun p => "\t" ++ npFmt [p.1, p.2])
          else [])
      | _ => .err (.shapeError 0)

/-- The whole loop over `results`, threading the enumeration index and
accumulating the drawing commands and printed lines; on an exception the
commands and lines of the earlier iterations were already issued and the
remaining records are not processed. -/
def palmsPlan (idx : ℕ) (results : List (List ℚ)) (printResults : Bool) :
    List DrawCmd × List String × Option VisErr :=
  match results with
  | [] => ([], [], none)
  | palm :: rest =>
    match palmPlan idx palm printResults with
    | .err e => ([], [], some e)
    | .ok cmds lines =>
      let r := palmsPlan (idx + 1) rest printResults
      (cmds ++ r.1, lines ++ r.2.1, r.2.2)

/-- The result of `visualize` on a store: the final store, the printed
lines, and either the reference of the returned annotated frame or the
exception raised. -/
inductive RunOut where
  | output (r : ℕ)
  | failed (e : VisErr)
deriving DecidableEq

/-- `visualize(image, results, print_results, fps)`: look up the frame,
clone it (`output = image.copy()` allocates a fresh buffer at the end of
the store), draw the FPS text when `fps` is not None, then run the
detection loop; every drawing call targets the clone. -/
def visualize (st : List Buffer) (imageRef : ℕ) (results : List (List ℚ))
    (printResults : Bool := false) (fps : Option ℚ := none) :
    List Buffer × List String × RunOut :=
  match st[imageRef]? with
  | none => (st, [], .failed .badRef)
  | some image =>
    let fpsCmds : List DrawCmd :=
      match fps with
      | some f =>
          [DrawCmd.putText ("FPS: " ++ fmtFixed 2 f) (0, 15) FONT_HERSHEY_SIMPLEX half (0, 0, 255)]
      | none => []
    let plan := palmsPlan 0 results printResults
    let outBuf : Buffer := ⟨image.pixels, image.cmds ++ (fpsCmds ++ plan.1)⟩
    (st ++ [outBuf], plan.2.1,
      match plan.2.2 with
      | none => RunOut.output st.length
      | some e => RunOut.failed e)

/-- Python `str.lower` on the ASCII range, as used by `v.lower()`. -/
def lowerStr (s : String) : String := String.mk (s.data.map Char.toLower)

/-- `str2bool` from the demo: case-insensitive membership in two fixed
literal sets; any other string raises NotImplementedError, modelled as
`none`. -/
def str2bool (v : String) : Option Bool :=
  if lowerStr v ∈ ["on", "yes", "true", "y", "t"] then some true
  else if lowerStr v ∈ ["off", "no", "false", "n", "f"] then some false
  else none

/-- The `--save` option: declared with `type=str` and `default=False`, so
its value is the Python bool `False` when omitted and the supplied string
otherwise. -/
inductive SaveArg where
  | omitted
  | supplied (s : String)
deriving DecidableEq

/-- Python truthiness of `args.save`, the guard of
`if args.save: cv.imwrite('result.jpg', image)`: the bool `False` is falsy
and a string is truthy exactly when non-empty. -/
def saveTruthy : SaveArg → Bool
  | .omitted => false
  | .supplied s => !(s == "")

/-- Extraction of the drawing commands of a loop iteration outcome. -/
def planCmds : PlanOut → List DrawCmd
  | .ok cmds _ => cmds
  | .err _ => []

/-- A predicate on commands: circle command. -/
def isCircle : DrawCmd → Bool
  | .circle _ _ _ _ => true
  | _ => false

/-- The circle commands of a trace. -/
def circleCmds (l : List DrawCmd) : List DrawCmd := l.filter isCircle

/-- Following the wording of the spec: a circle command draws a FILLED
circle when its thickness argument is negative, as in `cv.FILLED = -1`;
a positive thickness draws an outline of that stroke width. -/
def isFilledCircle : DrawCmd → Bool
  | .circle _ _ _ t => t < 0
  | _ => false

/-- The report block for one detection as the spec describes it: a
separator line naming the 1-based detection index, the score to two
decimals, the integer box, a header, and each integer landmark point on
its own tab-indented line. -/
def specReportBlock (i : ℕ) (palm : List ℚ) : List String :=
  ("-----------palm " ++ toString i ++ "-----------")
    :: ("score: " ++ fmtFixed 2 (palm.getLast?.getD 0))
    :: ("palm box: " ++ npFmt ((palm.take 4).map truncInt))
    :: "palm landmarks: "
    :: (pairup ((palm.drop 4).dropLast)).map
        (fun p => "\t" ++ npFmt [truncInt p.1, truncInt p.2])

/-- A concrete well-formed detection record: box (10, 10, 50, 50), seven
landmarks at (30, 30), score 0.99. -/
def cexPalm : List ℚ :=
  [10, 10, 50, 50, 30, 30, 30, 30, 30, 30, 30, 30, 30, 30, 30, 30, 30, 30, mkRat 99 100]

/-- A list of four elements is a literal four-element list. -/
theorem exists_four {α : Type} (l : List α) (h : l.length = 4) :
    ∃ a b c d, l = [a, b, c, d] := by
  match l, h with
  | [a, b, c, d], _ => exact ⟨a, b, c, d, rfl⟩

/-- Characterization of one loop iteration on a well-formed record: it
succeeds, and the lines it prints are exactly the spec-side report block
for the 1-based index. -/
theorem palmPlan_wf (idx : ℕ) (printResults : Bool) (palm : List ℚ)
    (hl : palm.length = 19) :
    ∃ cmds, palmPlan idx palm printResults =
      .ok cmds (if printResults then specReportBlock (idx + 1) palm else []) := by
  obtain ⟨s, hs⟩ : ∃ s, palm.getLast? = some s := by
    cases hgl : palm.getLast? with
    | none =>
        rw [List.getLast?_eq_none_iff] at hgl
        subst hgl; simp at hl
    | some s => exact ⟨s, rfl⟩
  have h14 : ((palm.drop 4).dropLast).length = 14 := by
    simp [hl]
  obtain ⟨a, b, c, d, h4⟩ := exists_four ((palm.take 4).map truncInt) (by simp [hl])
  unfold palmPlan
  rw [hs]
  rw [show reshape7x2 ((palm.drop 4).dropLast) = some (pairup ((palm.drop 4).dropLast)) from by
    simp [reshape7x2, h14]]
  rw [h4]
  cases printResults with
  | false =>
    apply Exists.intro
    rfl
  | true =>
    apply Exists.intro
    simp only [if_true]
    unfold specReportBlock
    rw [hs, h4]
    simp [List.map_map, Function.comp]
    rfl

/-- Characterization of one loop iteration on a nonempty malformed record:
the reshape raises the shape error carrying the size of the sliced
landmark array. -/
theorem palmPlan_malformed (idx : ℕ) (printResults : Bool) (palm : List ℚ)
    (hne : palm ≠ []) (hl : palm.length ≠ 19) :
    palmPlan idx palm printResults =
      .err (.shapeError ((palm.drop 4).dropLast).length) := by
  obtain ⟨s, hs⟩ : ∃ s, palm.getLast? = some s := by
    cases hgl : palm.getLast? with
    | none => exact absurd (List.getLast?_eq_none_iff.mp hgl) hne
    | some s => exact ⟨s, rfl⟩
  have hlen : ¬ ((palm.drop 4).dropLast).length = 14 := by
    simp only [List.length_dropLast, List.length_drop]
    omega
  unfold palmPlan
  rw [hs, show reshape7x2 ((palm.drop 4).dropLast) = none from by
    simp only [reshape7x2, if_neg hlen]]

/-- The loop raises a shape error whenever the record list holds a record
of the wrong total arity, provided no record is fully empty. -/
theorem palmsPlan_err (printResults : Bool) (palm : List ℚ) (hl : palm.length ≠ 19) :
    ∀ (results : List (List ℚ)) (k : ℕ), palm ∈ results → (∀ p ∈ results, p ≠ []) →
      ∃ n, (palmsPlan k results printResults).2.2 = some (VisErr.shapeError n) := by
  intro results
  induction results with
  | nil => intro k hmem _; cases hmem
  | cons head tail ih =>
    intro k hmem hne
    by_cases hh : head.length = 19
    · have hmem2 : palm ∈ tail := by
        rcases List.mem_cons.mp hmem with rfl | hmem2
        · exact absurd hh hl
        · exact hmem2
      obtain ⟨cmds, hpp⟩ := palmPlan_wf k printResults head hh
      obtain ⟨n, hn⟩ := ih (k + 1) hmem2 (fun p hp => hne p (List.mem_cons_of_mem _ hp))
      refine ⟨n, ?_⟩
      unfold palmsPlan
      rw [hpp]
      simpa using hn
    · have hne1 : head ≠ [] := hne head (List.mem_cons_self _ _)
      have hm := palmPlan_malformed k printResults head hne1 hh
      exact ⟨_, by unfold palmsPlan; rw [hm]⟩

/-- Claim C1: `visualize` never mutates its input frame.  The buffer the
input reference points to is the same, pixel for pixel and command for
command, before and after the call, for every store, reference, record
list, report flag and fps argument: the function only appends a fresh
clone to the store and draws on the clone. -/
theorem visualize_input_frame_unchanged (st : List Buffer) (r : ℕ)
    (results : List (List ℚ)) (printResults : Bool) (fps : Option ℚ) :
    ((visualize st r results printResults fps).1)[r]? = st[r]? := by
  unfold visualize
  cases h : st[r]? with
  | none => simpa using h
  | some img =>
    have hr : r < st.length := by
      cases List.getElem?_eq_some.mp h with
      | intro hlt _ => exact hlt
    simp [List.getElem?_append_left hr, h]

/-- Claim C3: on a non-empty frame, an empty detection list and no fps,
`visualize` returns a clone that is pixel-identical to the input frame
and draws nothing. -/
theorem visualize_empty_detections_identity (st : List Buffer) (r : ℕ) (img : Buffer)
    (printResults : Bool) (hpx : img.pixels ≠ []) (h : st[r]? = some img) :
    visualize st r [] printResults none = (st ++ [img], [], RunOut.output st.length) := by
  unfold visualize
  rw [h]
  simp [palmsPlan]

/-- Witness for C3 at a concrete one-pixel frame. -/
theorem visualize_empty_detections_identity_witness :
    (Buffer.mk [[(0, 0, 0)]] []).pixels ≠ [] ∧
    visualize [Buffer.mk [[(0, 0, 0)]] []] 0 [] false none =
      ([Buffer.mk [[(0, 0, 0)]] [], Buffer.mk [[(0, 0, 0)]] []], [],
        RunOut.output 1) :=
  ⟨by decide, visualize_empty_detections_identity _ 0 _ false (by decide) rfl⟩

/-- Claim C9: `visualize` is deterministic; two calls on identical stores,
references, record lists, report flags and fps arguments return identical
stores, identical printed report lines and identical outcomes. -/
theorem visualize_deterministic (st st2 : List Buffer) (r r2 : ℕ)
    (results results2 : List (List ℚ)) (printResults printResults2 : Bool)
    (fps fps2 : Option ℚ) (hst : st = st2) (hr : r = r2) (hres : results = results2)
    (hpr : printResults = printResults2) (hfps : fps = fps2) :
    visualize st r results printResults fps =
      visualize st2 r2 results2 printResults2 fps2 := by
  subst hst hr hres hpr hfps
  rfl

/-- Witness for C9 at a concrete input. -/
theorem visualize_deterministic_witness :
    visualize [Buffer.mk [[(0, 0, 0)]] []] 0 [cexPalm] true (some 0) =
      visualize [Buffer.mk [[(0, 0, 0)]] []] 0 [cexPalm] true (some 0) :=
  visualize_deterministic _ _ _ _ _ _ _ _ _ _ rfl rfl rfl rfl rfl

/-- Claim C8: `str2bool` accepts exactly the literal sets of the source,
case-insensitively through `lower`, and returns `none` (the raised
NotImplementedError) on every other string. -/
theorem str2bool_literal_sets (s : String) :
    (str2bool s = some true ↔ lowerStr s ∈ ["on", "yes", "true", "y", "t"]) ∧
    (str2bool s = some false ↔ lowerStr s ∈ ["off", "no", "false", "n", "f"]) ∧
    (str2bool s = none ↔
      lowerStr s ∉ ["on", "yes", "true", "y", "t"] ∧
      lowerStr s ∉ ["off", "no", "false", "n", "f"]) := by
  unfold str2bool
  by_cases h1 : lowerStr s ∈ ["on", "yes", "true", "y", "t"] <;>
    by_cases h2 : lowerStr s ∈ ["off", "no", "false", "n", "f"] <;>
      simp only [h1, h2, if_true, if_false, ite_true, ite_false] <;> simp_all
  rcases h1 with h | h | h | h | h <;> rcases h2 with g | g | g | g | g <;>
    rw [h] at g <;> exact absurd g (by decide)

/-- Claim C10 (amended): a supplied `--save` value is truthy exactly when
it is a non-empty string, so any non-empty value, `false`, `no` and `off`
included, makes the main branch write `result.jpg`, while omitting the
option (the Python bool `False` default) disables saving. -/
theorem save_nonempty_value_triggers (s : String) (h : s ≠ "") :
    saveTruthy (SaveArg.supplied s) = true ∧
    saveTruthy (SaveArg.supplied "false") = true ∧
    saveTruthy (SaveArg.supplied "no") = true ∧
    saveTruthy (SaveArg.supplied "off") = true ∧
    saveTruthy SaveArg.omitted = false := by
  refine ⟨?_, by decide, by decide, by decide, rfl⟩
  simp [saveTruthy, h]

/-- Witness for the amended C10 at the value `false`. -/
theorem save_nonempty_value_triggers_witness :
    ("false" ≠ "") ∧
    (saveTruthy (SaveArg.supplied "false") = true ∧
      saveTruthy (SaveArg.supplied "false") = true ∧
      saveTruthy (SaveArg.supplied "no") = true ∧
      saveTruthy (SaveArg.supplied "off") = true ∧
      saveTruthy SaveArg.omitted = false) :=
  ⟨by decide, save_nonempty_value_triggers "false" (by decide)⟩

/-- Counterexample to C10 as stated: the explicitly supplied empty string
is a value for `--save`, yet it is falsy, so `result.jpg` is not written. -/
theorem save_empty_string_cex : saveTruthy (SaveArg.supplied "") = false := by decide

/-- Claim C2 (amended): if the record list holds a record of the wrong
total arity then `visualize` raises instead of returning an annotated
frame; when no record is fully empty the exception is the shape error of
the landmark reshape.  A fully empty record raises the index error of the
score read `palm[-1]` before the shape check is reached. -/
theorem visualize_malformed_record_fails (st : List Buffer) (r : ℕ) (img : Buffer)
    (results : List (List ℚ)) (printResults : Bool) (fps : Option ℚ) (palm : List ℚ)
    (h : st[r]? = some img) (hmem : palm ∈ results) (hl : palm.length ≠ 19)
    (hne : ∀ p ∈ results, p ≠ []) :
    ∃ n, (visualize st r results printResults fps).2.2 =
      RunOut.failed (VisErr.shapeError n) := by
  obtain ⟨n, hn⟩ := palmsPlan_err printResults palm hl results 0 hmem hne
  refine ⟨n, ?_⟩
  unfold visualize
  rw [h]
  simp [hn]

/-- Witness for C2: one record with only three coordinates. -/
theorem visualize_malformed_record_fails_witness :
    ([Buffer.mk [[(0, 0, 0)]] []])[0]? = some (Buffer.mk [[(0, 0, 0)]] []) ∧
    ([0, 0, 0] : List ℚ) ∈ [([0, 0, 0] : List ℚ)] ∧
    ([0, 0, 0] : List ℚ).length ≠ 19 ∧
    (∃ n, (visualize [Buffer.mk [[(0, 0, 0)]] []] 0 [[0, 0, 0]] false none).2.2 =
      RunOut.failed (VisErr.shapeError n)) :=
  ⟨rfl, by decide, by decide,
    visualize_malformed_record_fails _ 0 _ _ false none [0, 0, 0] rfl (by decide)
      (by decide) (by decide)⟩

/-- Counterexample to C2 as stated: a fully empty record also has wrong
box arity, yet the failure is the index error of the score read, not a
shape error. -/
theorem visualize_malformed_record_fails_cex :
    (visualize [Buffer.mk [[(0, 0, 0)]] []] 0 [[]] false none).2.2 =
      RunOut.failed VisErr.indexError ∧
    (match (visualize [Buffer.mk [[(0, 0, 0)]] []] 0 [[]] false none).2.2 with
      | RunOut.failed (VisErr.shapeError _) => False
      | _ => True) :=
  ⟨rfl, trivial⟩

/-- Claim C4: with `fps` present the clone gets the text
`FPS: ` followed by the two-decimal value, anchored at (0, 15) with font
scale 0.5; `fmtFixed 2 0` is the string `0.00`; with `fps` absent no FPS
text is drawn; and the two outputs for `fps = 0` and `fps` absent differ. -/
theorem visualize_fps_zero_vs_none (st : List Buffer) (r : ℕ) (img : Buffer)
    (results : List (List ℚ)) (printResults : Bool) (f : ℚ)
    (h : st[r]? = some img) :
    ((visualize st r results printResults (some f)).1)[st.length]? =
      some ⟨img.pixels, img.cmds ++
        DrawCmd.putText ("FPS: " ++ fmtFixed 2 f) (0, 15) FONT_HERSHEY_SIMPLEX half (0, 0, 255)
          :: (palmsPlan 0 results printResults).1⟩ ∧
    fmtFixed 2 0 = "0.00" ∧
    ((visualize st r results printResults none).1)[st.length]? =
      some ⟨img.pixels, img.cmds ++ (palmsPlan 0 results printResults).1⟩ ∧
    ((visualize st r results printResults (some 0)).1)[st.length]? ≠
      ((visualize st r results printResults none).1)[st.length]? := by
  have key : ∀ fps : Option ℚ, ((visualize st r results printResults fps).1)[st.length]? =
      some ⟨img.pixels, img.cmds ++
        ((match fps with
          | some f =>
              [DrawCmd.putText ("FPS: " ++ fmtFixed 2 f) (0, 15) FONT_HERSHEY_SIMPLEX half
                (0, 0, 255)]
          | none => []) ++ (palmsPlan 0 results printResults).1)⟩ := by
    intro fps
    unfold visualize
    rw [h]
    simp
    rfl
  refine ⟨by simpa using key (some f), rfl, by simpa using key none, ?_⟩
  rw [key (some 0), key none]
  intro hcontra
  have hbuf := Option.some.inj hcontra
  have hcmds := congrArg (fun b => b.cmds.length) hbuf
  simp [List.length_append] at hcmds

/-- Witness for C4 at a concrete one-pixel frame and empty record list. -/
theorem visualize_fps_zero_vs_none_witness :
    ((visualize [Buffer.mk [[(0, 0, 0)]] []] 0 [] false (some 0)).1)[1]? =
      some ⟨(Buffer.mk [[(0, 0, 0)]] []).pixels, (Buffer.mk [[(0, 0, 0)]] []).cmds ++
        DrawCmd.putText ("FPS: " ++ fmtFixed 2 0) (0, 15) FONT_HERSHEY_SIMPLEX half (0, 0, 255)
          :: (palmsPlan 0 [] false).1⟩ ∧
    fmtFixed 2 0 = "0.00" ∧
    ((visualize [Buffer.mk [[(0, 0, 0)]] []] 0 [] false none).1)[1]? =
      some ⟨(Buffer.mk [[(0, 0, 0)]] []).pixels,
        (Buffer.mk [[(0, 0, 0)]] []).cmds ++ (palmsPlan 0 [] false).1⟩ ∧
    ((visualize [Buffer.mk [[(0, 0, 0)]] []] 0 [] false (some 0)).1)[1]? ≠
      ((visualize [Buffer.mk [[(0, 0, 0)]] []] 0 [] false none).1)[1]? :=
  visualize_fps_zero_vs_none [Buffer.mk [[(0, 0, 0)]] []] 0 (Buffer.mk [[(0, 0, 0)]] [])
    [] false 0 rfl

/-- Claim C5 (amended): for every well-formed record the loop body draws,
for each of the 7 landmark pairs in order, one circle of radius 2 in the
red accent (0, 0, 255) centered at the integer-converted landmark; the
circles are drawn with stroke thickness 2, the thickness argument of
`cv.circle`, not with the negative FILLED thickness. -/
theorem visualize_landmark_circles (idx : ℕ) (printResults : Bool)
    (x1 y1 x2 y2 u1 v1 u2 v2 u3 v3 u4 v4 u5 v5 u6 v6 u7 v7 s : ℚ) :
    circleCmds (planCmds (palmPlan idx
        [x1, y1, x2, y2, u1, v1, u2, v2, u3, v3, u4, v4, u5, v5, u6, v6, u7, v7, s]
        printResults)) =
      [DrawCmd.circle (truncInt u1, truncInt v1) 2 (0, 0, 255) 2,
       DrawCmd.circle (truncInt u2, truncInt v2) 2 (0, 0, 255) 2,
       DrawCmd.circle (truncInt u3, truncInt v3) 2 (0, 0, 255) 2,
       DrawCmd.circle (truncInt u4, truncInt v4) 2 (0, 0, 255) 2,
       DrawCmd.circle (truncInt u5, truncInt v5) 2 (0, 0, 255) 2,
       DrawCmd.circle (truncInt u6, truncInt v6) 2 (0, 0, 255) 2,
       DrawCmd.circle (truncInt u7, truncInt v7) 2 (0, 0, 255) 2] := by
  rfl

/-- Counterexample to C5 as stated: on a concrete well-formed record the
seven landmark circles are drawn, and none of them is a FILLED circle in
the sense of the negative thickness convention; the thickness argument is
the positive stroke width 2. -/
theorem visualize_landmark_circles_cex :
    circleCmds (planCmds (palmPlan 0 cexPalm false)) ≠ [] ∧
    (circleCmds (planCmds (palmPlan 0 cexPalm false))).filter isFilledCircle = [] := by
  decide

/-- Claim C7: the box is converted with `truncInt`, truncation toward
zero, at render time: the score anchor is the truncated corner shifted by
12 rows, the rectangle corners are the truncated box coordinates and the
circle centers the truncated landmarks; `truncInt` is the identity on
every coordinate that is already integral; and truncation differs from
rounding to nearest, as at 5.7 where it yields 5 while `round` yields 6. -/
theorem visualize_box_truncated (idx : ℕ) (printResults : Bool)
    (x1 y1 x2 y2 u1 v1 u2 v2 u3 v3 u4 v4 u5 v5 u6 v6 u7 v7 s : ℚ) (n : ℤ) :
    planCmds (palmPlan idx
        [x1, y1, x2, y2, u1, v1, u2, v2, u3, v3, u4, v4, u5, v5, u6, v6, u7, v7, s]
        printResults) =
      DrawCmd.putText (fmtFixed 4 s) (truncInt x1, truncInt y1 + 12)
          FONT_HERSHEY_DUPLEX half (0, 255, 0)
        :: DrawCmd.rectangle (truncInt x1, truncInt y1) (truncInt x2, truncInt y2) (0, 255, 0) 2
        :: [DrawCmd.circle (truncInt u1, truncInt v1) 2 (0, 0, 255) 2,
            DrawCmd.circle (truncInt u2, truncInt v2) 2 (0, 0, 255) 2,
            DrawCmd.circle (truncInt u3, truncInt v3) 2 (0, 0, 255) 2,
            DrawCmd.circle (truncInt u4, truncInt v4) 2 (0, 0, 255) 2,
            DrawCmd.circle (truncInt u5, truncInt v5) 2 (0, 0, 255) 2,
            DrawCmd.circle (truncInt u6, truncInt v6) 2 (0, 0, 255) 2,
            DrawCmd.circle (truncInt u7, truncInt v7) 2 (0, 0, 255) 2] ∧
    truncInt ((n : ℚ)) = n ∧
    truncInt (mkRat 57 10) = 5 ∧ round (mkRat 57 10 : ℚ) = 6 := by
  refine ⟨rfl, ?_, by decide, ?_⟩
  · simp [truncInt, Rat.intCast_num, Rat.intCast_den]
  · rw [show (mkRat 57 10 : ℚ) = 57 / 10 from by
      rw [Rat.mkRat_eq_divInt, Rat.divInt_eq_div]; norm_num]
    rw [round_eq]
    norm_num

/-- On well-formed records the printed lines of the loop are exactly the
concatenation of the spec-side report blocks, in input order, with the
printed index shifted by one from the enumeration index. -/
theorem palmsPlan_report (results : List (List ℚ)) :
    ∀ k : ℕ, (∀ p ∈ results, p.length = 19) →
      (palmsPlan k results true).2.1 =
        (results.mapIdx (fun i p => specReportBlock (k + i + 1) p)).flatten := by
  induction results with
  | nil => intro k _; rfl
  | cons head tail ih =>
    intro k hwf
    obtain ⟨cmds, hpp⟩ := palmPlan_wf k true head (hwf head (List.mem_cons_self _ _))
    unfold palmsPlan
    rw [hpp]
    simp only [if_true]
    rw [ih (k + 1) (fun p hp => hwf p (List.mem_cons_of_mem _ hp))]
    rw [List.mapIdx_cons, List.flatten_cons]
    have harith : (fun i p => specReportBlock (k + 1 + i + 1) p) =
        (fun i (p : List ℚ) => specReportBlock (k + (i + 1) + 1) p) := by
      funext i p
      have : k + 1 + i + 1 = k + (i + 1) + 1 := by omega
      rw [this]
    rw [harith]

/-- Claim C6: with report emission requested and well-formed records, the
report output of `visualize` is, for each detection in input order with
indices starting at 1, the block of the separator line naming the index,
the score to two decimals, the integer box, and each integer landmark
point on its own tab-indented line. -/
theorem visualize_report_blocks (st : List Buffer) (r : ℕ) (img : Buffer)
    (results : List (List ℚ)) (fps : Option ℚ) (h : st[r]? = some img)
    (hwf : ∀ p ∈ results, p.length = 19) :
    (visualize st r results true fps).2.1 =
      (results.mapIdx (fun i p => specReportBlock (i + 1) p)).flatten := by
  unfold visualize
  rw [h]
  have := palmsPlan_report results 0 hwf
  simpa using this

/-- Witness for C6 at the scenario of the spec: one record with box
(10, 10, 50, 50), seven landmarks at (30, 30) and score 0.99; the block
is also evaluated to its literal strings. -/
theorem visualize_report_blocks_witness :
    ([Buffer.mk [[(0, 0, 0)]] []])[0]? = some (Buffer.mk [[(0, 0, 0)]] []) ∧
    (∀ p ∈ [cexPalm], p.length = 19) ∧
    (visualize [Buffer.mk [[(0, 0, 0)]] []] 0 [cexPalm] true none).2.1 =
      (([cexPalm]).mapIdx (fun i p => specReportBlock (i + 1) p)).flatten ∧
    specReportBlock 1 cexPalm =
      ["-----------palm 1-----------", "score: 0.99", "palm box: [10 10 50 50]",
       "palm landmarks: ", "\t[30 30]", "\t[30 30]", "\t[30 30]", "\t[30 30]",
       "\t[30 30]", "\t[30 30]", "\t[30 30]"] :=
  ⟨rfl, by decide,
    visualize_report_blocks _ 0 _ [cexPalm] none rfl (by decide), by decide⟩
